import Mathlib

/-!
Shallow embedding of the api-gateway service (src/api-gateway) for checking
its natural-language specification.

Modelling conventions:
* SQLAlchemy rows become Lean structures; the database session becomes an
  explicit `Db` state value threaded through every operation.
* `uuid.uuid4()` identifier generation is modelled by a fresh-id counter
  `Db.nextId` (each generated identifier is the current counter value and the
  counter is incremented), so generated identifiers are `Nat`.
* Caller-supplied user identifiers stay `String` (the code uses the supplied
  `user_id` string directly as the `User` primary key, index.py line 316).
* Wall-clock reads (`datetime.now()`, `time.time()`) become explicit inputs
  (`Env.now` for the strftime title label, `Env.clock` for timestamps).
* Python exceptions become explicit result constructors; raising
  `HTTPException(status, detail)` becomes the `httpError status detail`
  outcome, and the generic `except Exception` handler of each endpoint is
  reflected at each internal raise site.
* The vLLM backend is an opaque collaborator: a function from the wire
  payload to an outcome (a parsed response, or an unreachable-network
  exception), supplied in `Env`.
-/

namespace Gateway

/-- One entry of the `messages` list of a chat request (Pydantic `ChatMessage`,
index.py lines 20-22). -/
structure ChatMessage where
  role : String
  content : String
deriving DecidableEq

/-- The body of `POST /v1/chat/completions` (Pydantic `ChatRequest`, index.py
lines 24-31).  `session_id` values are modelled as `Nat` because session
identifiers are generated from the fresh-id counter. -/
structure ChatRequest where
  model : String := "qwen2.5-7b"
  messages : List ChatMessage
  sessionId : Option Nat := none
  userId : String := "default"
  temperature : Float := 0.7
  maxTokens : Option Int := none
  stream : Bool := false

/-- A `sessions` row (models.py lines 24-39).  `created_at` is not tracked;
`updated_at` is the `Nat` clock value last written to it. -/
structure SessionRow where
  id : Nat
  userId : String
  title : String
  modelName : String
  updatedAt : Nat
deriving DecidableEq

/-- A `messages` row (models.py lines 41-53).  List position in `Db.messages`
is the insertion order, which is also the `created_at` order produced by the
sequential write path. -/
structure MessageRow where
  id : Nat
  sessionId : Nat
  role : String
  content : String
  tokenCount : Nat
deriving DecidableEq

/-- The wire payload sent to the vLLM backend (index.py lines 243-251).
`maxTokens = none` means the `max_tokens` key is absent from the JSON object
(it is never sent as null). -/
structure VllmRequest where
  model : String
  messages : List ChatMessage
  temperature : Float
  stream : Bool
  maxTokens : Option Int := none

/-- A `request_logs` row (models.py lines 55-69).  `requestData` keeps the
serialized outgoing payload (`json.dumps(vllm_request)`, index.py line 282)
as the payload value itself. -/
structure RequestLogRow where
  id : Nat
  userId : String
  sessionId : Nat
  endpoint : String
  method : String
  ipAddress : String
  userAgent : String
  requestData : VllmRequest
  responseStatus : Nat
  responseTimeMs : Nat

/-- The persistent store reached through the SQLAlchemy session:  the four
tables plus the fresh-identifier counter standing in for `uuid.uuid4()`.
A `users` row is represented by its primary key; the other User columns are
never read by the gateway code, but the NOT NULL `username` column
(models.py line 14, no default) matters on the write path: it makes the
miss-path insert of `get_or_create_user` fail, which is captured by that
operation's error result.  Note also that the only row `init_database`
pre-creates (`create_default_user`, database.py lines 58-76) is keyed by a
random uuid, not by the username `default`, so caller-supplied identifiers
such as `default` or `u1` do not match it. -/
structure Db where
  users : List String
  sessions : List SessionRow
  messages : List MessageRow
  requestLogs : List RequestLogRow
  nextId : Nat

/-- The empty database (state right after `init_database` table creation,
before any request). -/
def Db.empty : Db :=
  { users := [], sessions := [], messages := [], requestLogs := [], nextId := 0 }

/-- Python truthiness of an `Optional[int]` value: `None` and `0` are falsy
(used by `if chat_request.max_tokens:`, index.py line 250). -/
def pyTruthyOptInt : Option Int → Bool
  | none => false
  | some v => v != 0

/-- Python `x or y` on an `Optional[str]` left operand: `None` and the empty
string are falsy, so both fall through to the default (used by
`title or f"..."`, index.py line 330). -/
def pyOrStr : Option String → String → String
  | none, d => d
  | some s, d => if s == "" then d else s

/-- The exception raised when the miss path of `get_or_create_user` commits:
`username` is `String(50), unique=True, nullable=False` with no default
(models.py line 14), and `User(id=user_id)` (index.py line 316) sets no
username, so the INSERT violates the NOT NULL constraint. -/
def integrityErrorUsersUsername : String :=
  "IntegrityError: NOT NULL constraint failed: users.username"

/-- `get_or_create_user` (index.py lines 310-321): select the `users` row by
primary key and return it on a hit.  On a miss the code builds
`User(id=user_id)` — leaving the NOT NULL `username` column unset — and
commits; the commit raises IntegrityError and persists nothing, so the miss
path never returns a row.  The raise is the `error` result; each caller's
`except Exception` handler turns it into a 500. -/
def get_or_create_user (st : Db) (userId : String) : Except String (String × Db) :=
  if st.users.contains userId then
    .ok (userId, st)
  else
    .error integrityErrorUsersUsername

/-- `create_new_session` (index.py lines 323-338): insert a `sessions` row
with a fresh identifier; the title falls back to the timestamp label when the
supplied title is falsy. -/
def create_new_session (st : Db) (userId : String) (modelName : String)
    (title : Option String) (now : String) (clock : Nat) : SessionRow × Db :=
  let s : SessionRow :=
    { id := st.nextId
      userId := userId
      title := pyOrStr title ("对话 " ++ now)
      modelName := modelName
      updatedAt := clock }
  (s, { st with sessions := st.sessions ++ [s], nextId := st.nextId + 1 })

/-- `get_session_by_id` (index.py lines 340-347): select the `sessions` row
whose id and owning user id both match; `scalar_one_or_none` becomes
`List.find?`. -/
def get_session_by_id (st : Db) (sessionId : Nat) (userId : String) : Option SessionRow :=
  st.sessions.find? (fun s => s.id == sessionId && s.userId == userId)

/-- `store_message` (index.py lines 349-365): insert a `messages` row with a
fresh identifier and commit. -/
def store_message (st : Db) (sessionId : Nat) (role content : String)
    (tokenCount : Nat) : MessageRow × Db :=
  let m : MessageRow :=
    { id := st.nextId
      sessionId := sessionId
      role := role
      content := content
      tokenCount := tokenCount }
  (m, { st with messages := st.messages ++ [m], nextId := st.nextId + 1 })

/-- `update_session_timestamp` (index.py lines 367-374): select the session by
id alone; when found set `updated_at` to the current clock; no-op otherwise. -/
def update_session_timestamp (st : Db) (sessionId : Nat) (clock : Nat) : Db :=
  { st with
    sessions := st.sessions.map (fun s =>
      if s.id == sessionId then { s with updatedAt := clock } else s) }

/-- `log_request_to_db` (index.py lines 376-396): insert one `request_logs`
row with a fresh identifier and commit. -/
def log_request_to_db (st : Db) (userId : String) (sessionId : Nat)
    (endpoint method ipAddress userAgent : String) (requestData : VllmRequest)
    (responseStatus : Nat) (responseTimeMs : Nat) : Db :=
  let row : RequestLogRow :=
    { id := st.nextId
      userId := userId
      sessionId := sessionId
      endpoint := endpoint
      method := method
      ipAddress := ipAddress
      userAgent := userAgent
      requestData := requestData
      responseStatus := responseStatus
      responseTimeMs := responseTimeMs }
  { st with requestLogs := st.requestLogs ++ [row], nextId := st.nextId + 1 }

/-- The parsed JSON body of a backend completion response, restricted to the
fields the gateway reads: `choices[*].message.content` (kept as the list of
choice contents), `usage.completion_tokens` and `usage.total_tokens` (the
`.get(..., 0)` defaults are baked into the `Nat` fields), the echoed model
name, plus the raw status code and body text used when the status is not
200 (index.py lines 261-274, 292-293). -/
structure BackendResponse where
  statusCode : Nat
  body : String
  choices : List String
  completionTokens : Nat := 0
  totalTokens : Nat := 0
  model : String := ""
deriving DecidableEq

/-- Outcome of the `httpx` POST to the backend: either a response arrived
(any status code) or the request raised a network error carrying a message
string. -/
inductive BackendOutcome where
  | respond (r : BackendResponse)
  | unreachable (msg : String)

/-- Ambient inputs of one chat-completion request: the backend collaborator,
whether the RequestLog commit raises (and with what message), the wall-clock
reads, and transport metadata. -/
structure Env where
  backend : VllmRequest → BackendOutcome
  logDbFails : Option String := none
  now : String := ""
  clock : Nat := 0
  clientIp : String := ""
  userAgent : String := ""
  elapsedMs : Nat := 0

/-- The successful response body: the backend payload with `session_id` and
`user_id` injected (index.py lines 285-286). -/
structure ChatCompletionOut where
  resp : BackendResponse
  sessionId : Nat
  userId : String
deriving DecidableEq

/-- Terminal outcome of the chat-completion handler: a 200 body, or an
`HTTPException(status, detail)`. -/
inductive PipelineResult where
  | ok (out : ChatCompletionOut)
  | httpError (status : Nat) (detail : String)
deriving DecidableEq

/-- Whether the handler returned the successful completion body. -/
def PipelineResult.isOk : PipelineResult → Bool
  | .ok _ => true
  | .httpError _ _ => false

/-- The wire payload construction (index.py lines 242-251): model, full
message list, temperature and stream always present; `max_tokens` added only
when `chat_request.max_tokens` is truthy. -/
def buildVllmRequest (req : ChatRequest) : VllmRequest :=
  let base : VllmRequest :=
    { model := req.model
      messages := req.messages
      temperature := req.temperature
      stream := req.stream
      maxTokens := none }
  if pyTruthyOptInt req.maxTokens then { base with maxTokens := req.maxTokens } else base

/-- Session resolution, steps at index.py lines 217-225: when the request
carries a session id, attempt the owner-scoped lookup; on a miss or an absent
id, create a new session titled with the timestamp label. -/
def resolve_session (env : Env) (st : Db) (userId : String) (req : ChatRequest) :
    SessionRow × Db :=
  let found : Option SessionRow :=
    match req.sessionId with
    | some sid => get_session_by_id st sid userId
    | none => none
  match found with
  | some s => (s, st)
  | none => create_new_session st userId req.model (some ("对话 " ++ env.now)) env.now env.clock

/-- Inbound-message persistence, index.py lines 227-232: the
`chat_request.messages[-1]` access is guarded by the list-truthiness check;
an unguarded access of the last element of an empty list would raise
IndexError (the `error` branch), which the handler's generic handler would
turn into a 500.  The message is stored only when the last entry has role
`user`. -/
def inboundStep (st : Db) (sessionId : Nat) (msgs : List ChatMessage) :
    Except String Db :=
  if msgs.isEmpty then .ok st
  else
    match msgs.getLast? with
    | none => .error "list index out of range"
    | some last =>
      if last.role == "user" then .ok (store_message st sessionId "user" last.content 0).2
      else .ok st

/-- Continuation of the handler after the backend responded (index.py lines
261-297): a non-200 status raises `HTTPException(status, "vLLM error: " +
text)` before any further write; on 200 the first choice's content is stored
as the assistant message (when a choice exists), the session timestamp is
touched, the RequestLog row is written (its commit may raise, which the
generic handler turns into a 500), and the augmented body is returned. -/
def after_backend (env : Env) (st : Db) (userId : String) (session : SessionRow)
    (payload : VllmRequest) (r : BackendResponse) : PipelineResult × Db :=
  if r.statusCode != 200 then
    (.httpError r.statusCode ("vLLM error: " ++ r.body), st)
  else
    let st4 : Db :=
      match r.choices with
      | [] => st
      | c :: _ => (store_message st session.id "assistant" c r.completionTokens).2
    let st5 := update_session_timestamp st4 session.id env.clock
    match env.logDbFails with
    | some e => (.httpError 500 ("Internal error: " ++ e), st5)
    | none =>
      let st6 := log_request_to_db st5 userId session.id "/v1/chat/completions" "POST"
        env.clientIp env.userAgent payload 200 env.elapsedMs
      (.ok { resp := r, sessionId := session.id, userId := userId }, st6)

/-- The `POST /v1/chat/completions` handler `chat_completions` (index.py lines
206-307), after the auth dependency resolved.  Structured as: resolve user
(whose miss path raises IntegrityError, turned into a 500 by the generic
handler before any later step runs), resolve session, persist inbound
message, build payload, call backend, then `after_backend`.  A network
failure of the backend call is an `httpx`
exception caught by the generic `except Exception` handler (line 301) and
reported as a 500.  The `auth.log_request` sink emissions inside the handler
(lines 235, 290, 303) touch only the process log sink, never the store or the
response, and are modelled separately with `verify_token`. -/
def chat_completions (env : Env) (st : Db) (req : ChatRequest) :
    PipelineResult × Db :=
  match get_or_create_user st req.userId with
  | .error e => (.httpError 500 ("Internal error: " ++ e), st)
  | .ok (userId, st1) =>
    let session := (resolve_session env st1 userId req).1
    let st2 := (resolve_session env st1 userId req).2
    match inboundStep st2 session.id req.messages with
    | .error e => (.httpError 500 ("Internal error: " ++ e), st2)
    | .ok st3 =>
      let payload := buildVllmRequest req
      match env.backend payload with
      | .unreachable e => (.httpError 500 ("Internal error: " ++ e), st3)
      | .respond r => after_backend env st3 userId session payload r

/-- One entry of the configured IP allow-list (index.py lines 93, 101,
112-122): either a single textual address compared for string equality, or a
CIDR range.  The `ipaddress` string parsing is abstracted by keeping ranges
pre-parsed as a 32-bit network address plus mask width; containment of an
address in a range is the usual shared-leading-bits test. -/
inductive AllowEntry where
  | single (addr : String)
  | cidr (network : Nat) (maskBits : Nat)

/-- A caller address both as the textual form the code compares and logs, and
as the numeric form used for range containment. -/
structure IpAddr where
  text : String
  numeric : Nat
deriving DecidableEq

/-- Containment of a 32-bit address in a CIDR range: the two agree on the
first `maskBits` bits, i.e. they are equal after dropping `32 - maskBits`
low bits. -/
def ipInNetwork (addr network maskBits : Nat) : Bool :=
  addr / 2 ^ (32 - maskBits) == network / 2 ^ (32 - maskBits)

/-- The access-guard configuration (index.py lines 91-101): shared API key,
parsed allow-list, and the `LOG_REQUESTS` toggle. -/
structure AuthConfig where
  apiKey : String
  allowedIps : List AllowEntry
  logRequests : Bool

/-- `SimpleAuth.verify_api_key` (index.py lines 103-105): exact string match
against the configured shared secret. -/
def verify_api_key (cfg : AuthConfig) (token : String) : Bool :=
  token == cfg.apiKey

/-- `SimpleAuth.check_ip_allowed` (index.py lines 107-123): an empty
allow-list admits every origin; otherwise some entry must match exactly or
contain the address. -/
def check_ip_allowed (cfg : AuthConfig) (ip : IpAddr) : Bool :=
  if cfg.allowedIps.isEmpty then true
  else
    cfg.allowedIps.any (fun e =>
      match e with
      | .single a => a == ip.text
      | .cidr network maskBits => ipInNetwork ip.numeric network maskBits)

/-- One structured audit fact written to the log sink by
`SimpleAuth.log_request` (index.py lines 125-135): timestamp, caller address,
endpoint, outcome string, optional detail map. -/
structure AuditFact where
  timestamp : String
  ip : String
  endpoint : String
  status : String
  details : List (String × String)
deriving DecidableEq

/-- `SimpleAuth.log_request` (index.py lines 125-135): emits one fact to the
log sink when the `LOG_REQUESTS` toggle is enabled, nothing otherwise.  The
emission is modelled as the list of facts produced by the call. -/
def SimpleAuth_log_request (cfg : AuthConfig) (timestamp ip endpoint status : String)
    (details : List (String × String)) : List AuditFact :=
  if cfg.logRequests then
    [{ timestamp := timestamp, ip := ip, endpoint := endpoint, status := status,
       details := details }]
  else []

/-- Outcome of the auth dependency: the caller's address on success, or the
raised `HTTPException`. -/
inductive AuthDecision where
  | allowed (clientIp : String)
  | denied (status : Nat) (detail : String)
deriving DecidableEq

/-- Whether the guard denied the request. -/
def AuthDecision.isDenied : AuthDecision → Bool
  | .allowed _ => false
  | .denied _ _ => true

/-- `verify_token` (index.py lines 139-154): origin check first (denial emits
an IP_BLOCKED fact and raises 403), then credential check (denial emits an
AUTH_FAILED fact with a reason map and raises 401); a fully passing check
returns the caller address and emits nothing.  Result: the decision paired
with the audit facts emitted to the log sink during the check. -/
def verify_token (cfg : AuthConfig) (timestamp : String) (ip : IpAddr)
    (path : String) (credential : String) : AuthDecision × List AuditFact :=
  if !check_ip_allowed cfg ip then
    (.denied 403 "IP not allowed",
     SimpleAuth_log_request cfg timestamp ip.text path "IP_BLOCKED" [])
  else if !verify_api_key cfg credential then
    (.denied 401 "Invalid API key",
     SimpleAuth_log_request cfg timestamp ip.text path "AUTH_FAILED"
       [("reason", "Invalid API key")])
  else
    (.allowed ip.text, [])

/-- The body of `POST /v1/sessions` (Pydantic `SessionCreate`, index.py lines
33-37).  Its declared fields are exactly `title`, `model_name`,
`system_prompt`, `user_id` — there is no field named `model`. -/
structure SessionCreate where
  title : Option String := none
  modelName : String := "qwen2.5-7b"
  systemPrompt : Option String := none
  userId : String := "default"

/-- Python attribute read `session_data.model` performed by the
`create_session` endpoint (index.py line 409).  The `SessionCreate` model
declares no attribute `model` (lines 33-37, its field is `model_name`), so
the read raises `AttributeError`; the raise is modelled as `none`. -/
def sessionCreate_attr_model (_ : SessionCreate) : Option String :=
  none

/-- The response model `SessionResponse` (index.py lines 39-46), restricted to
the fields the claims inspect. Its required field is `model_name`. -/
structure SessionResponse where
  id : Nat
  title : String
  modelName : String
  messageCount : Nat
deriving DecidableEq

/-- The construction `SessionResponse(id=..., title=..., model=...,
created_at=..., updated_at=..., message_count=...)` written at index.py lines
411-418, 442-449 and 473-480: it passes an unknown keyword `model` and omits
the required field `model_name` (line 42), so Pydantic validation raises; the
raise is modelled as the `error` branch. -/
def mkSessionResponse_modelKw (_s : SessionRow) (_messageCount : Nat) :
    Except String SessionResponse :=
  .error "validation error for SessionResponse: model_name field required"

/-- The response model `MessageResponse` (index.py lines 48-53), restricted to
the fields the claims inspect (its construction at lines 530-536 passes every
required field correctly). -/
structure MessageResponse where
  id : Nat
  role : String
  content : String
  tokenCount : Nat
deriving DecidableEq

/-- Terminal outcome of a session CRUD endpoint: a response value or a raised
`HTTPException(status, detail)`. -/
inductive EpResult (α : Type) where
  | ok (val : α)
  | err (status : Nat) (detail : String)
deriving DecidableEq

/-- Insertion of a session row into a list sorted by `updated_at` descending
(executable rendering of the `ORDER BY Session.updated_at DESC` of index.py
line 437). -/
def insertByUpdatedDesc (s : SessionRow) : List SessionRow → List SessionRow
  | [] => [s]
  | t :: ts => if t.updatedAt ≤ s.updatedAt then s :: t :: ts else t :: insertByUpdatedDesc s ts

/-- Sort session rows by `updated_at` descending. -/
def sortByUpdatedDesc : List SessionRow → List SessionRow
  | [] => []
  | s :: ss => insertByUpdatedDesc s (sortByUpdatedDesc ss)

/-- Count of `messages` rows of one session (the `func.count(Message.id)`
aggregates of index.py lines 433 and 468-471). -/
def countMessages (st : Db) (sessionId : Nat) : Nat :=
  (st.messages.filter (fun m => m.sessionId == sessionId)).length

/-- The `POST /v1/sessions` endpoint `create_session` (index.py lines
399-420): resolve-or-create the user — whose miss path raises IntegrityError,
caught by the `except Exception` handler (lines 419-420) as a 500 with
nothing persisted — then read `session_data.model`, an attribute that does
not exist, so even a resolved user gets a 500; the dead continuation
(session insert and response construction) is kept for fidelity. -/
def create_session_ep (env : Env) (st : Db) (sd : SessionCreate) :
    EpResult SessionResponse × Db :=
  match get_or_create_user st sd.userId with
  | .error e => (.err 500 ("Failed to create session: " ++ e), st)
  | .ok (userId, st1) =>
    match sessionCreate_attr_model sd with
    | none =>
      (.err 500 "Failed to create session: SessionCreate object has no attribute model", st1)
    | some modelName =>
      let s := (create_new_session st1 userId modelName sd.title env.now env.clock).1
      let st2 := (create_new_session st1 userId modelName sd.title env.now env.clock).2
      match mkSessionResponse_modelKw s 0 with
      | .ok r => (.ok r, st2)
      | .error e => (.err 500 ("Failed to create session: " ++ e), st2)

/-- The `GET /v1/sessions` endpoint `list_sessions` (index.py lines 422-453):
resolve-or-create the user (miss path raises, answered as a 500 with nothing
persisted), select that user's sessions newest-touched first with their
message counts, and build one `SessionResponse` per row — a construction that
raises on the first row (lines 442-449), reported by the `except Exception`
handler as a 500; an empty listing returns the empty list. -/
def list_sessions_ep (st : Db) (userId : String) :
    EpResult (List SessionResponse) × Db :=
  match get_or_create_user st userId with
  | .error e => (.err 500 ("Failed to list sessions: " ++ e), st)
  | .ok (u, st1) =>
    let rows := sortByUpdatedDesc (st1.sessions.filter (fun s => s.userId == u))
    match rows.mapM (fun s => mkSessionResponse_modelKw s (countMessages st1 s.id)) with
    | .ok rs => (.ok rs, st1)
    | .error e => (.err 500 ("Failed to list sessions: " ++ e), st1)

/- The `GET /v1/sessions/id` endpoint `get_session` (index.py lines 455-484)
is dead code and is deliberately NOT modelled as an executable operation:
its body is a syntax error — inside the same `try:` block, line 461 is
indented by nine spaces and line 462 by eight, an IndentationError
("unindent does not match any outer indentation level"), so the endpoint can
never run.  A function that cannot be parsed has no behavior to embed. -/

/-- The `DELETE /v1/sessions/id` endpoint `delete_session` (index.py lines
486-507): resolve-or-create the user (miss path raises, answered as a 500
with nothing persisted), owner-scoped lookup, 404 on a miss; on a hit delete
the session row, cascading to its messages (models.py line 39). -/
def delete_session_ep (st : Db) (sessionId : Nat) (userId : String) :
    EpResult String × Db :=
  match get_or_create_user st userId with
  | .error e => (.err 500 ("Failed to delete session: " ++ e), st)
  | .ok (u, st1) =>
    match get_session_by_id st1 sessionId u with
    | none => (.err 404 "Session not found", st1)
    | some s =>
      (.ok "Session deleted successfully",
       { st1 with
         sessions := st1.sessions.filter (fun t => t.id != s.id)
         messages := st1.messages.filter (fun m => m.sessionId != s.id) })

/-- The `GET /v1/sessions/id/messages` endpoint `get_session_messages`
(index.py lines 509-542): resolve-or-create the user (miss path raises,
answered as a 500 with nothing persisted), owner-scoped lookup, 404 on a
miss; on a hit return the session's messages in creation order. -/
def get_session_messages_ep (st : Db) (sessionId : Nat) (userId : String) :
    EpResult (List MessageResponse) × Db :=
  match get_or_create_user st userId with
  | .error e => (.err 500 ("Failed to get messages: " ++ e), st)
  | .ok (u, st1) =>
    match get_session_by_id st1 sessionId u with
    | none => (.err 404 "Session not found", st1)
    | some s =>
      (.ok ((st1.messages.filter (fun m => m.sessionId == s.id)).map
        (fun m => { id := m.id, role := m.role, content := m.content,
                    tokenCount := m.tokenCount })),
       st1)

/-! ## Helper lemmas about the store operations -/

/-- On a hit (the identifier already keys a `users` row) resolve-or-create
returns that identifier with the store unchanged. -/
theorem get_or_create_user_hit (st : Db) (u : String)
    (hu : st.users.contains u = true) :
    get_or_create_user st u = .ok (u, st) := by
  have hmem : u ∈ st.users := by simpa using hu
  simp [get_or_create_user, hmem]

/-- On a miss resolve-or-create raises the users.username IntegrityError and
persists nothing. -/
theorem get_or_create_user_miss (st : Db) (u : String)
    (hu : st.users.contains u = false) :
    get_or_create_user st u = .error integrityErrorUsersUsername := by
  have hmem : u ∉ st.users := by simpa using hu
  simp [get_or_create_user, hmem]

theorem resolve_session_messages (env : Env) (st : Db) (u : String) (req : ChatRequest) :
    ((resolve_session env st u req).2).messages = st.messages := by
  unfold resolve_session
  cases req.sessionId with
  | none => simp [create_new_session]
  | some sid => cases h : get_session_by_id st sid u <;> simp [h, create_new_session]

theorem resolve_session_requestLogs (env : Env) (st : Db) (u : String) (req : ChatRequest) :
    ((resolve_session env st u req).2).requestLogs = st.requestLogs := by
  unfold resolve_session
  cases req.sessionId with
  | none => simp [create_new_session]
  | some sid => cases h : get_session_by_id st sid u <;> simp [h, create_new_session]

theorem resolve_session_sessions_mem (env : Env) (st : Db) (u : String) (req : ChatRequest)
    (s : SessionRow) (hs : s ∈ st.sessions) :
    s ∈ ((resolve_session env st u req).2).sessions := by
  unfold resolve_session
  cases req.sessionId with
  | none => simp [create_new_session]; exact Or.inl hs
  | some sid =>
    cases h : get_session_by_id st sid u with
    | none => simp [h, create_new_session]; exact Or.inl hs
    | some s2 => simpa [h] using hs

theorem store_message_requestLogs (st : Db) (sid : Nat) (role content : String) (tc : Nat) :
    ((store_message st sid role content tc).2).requestLogs = st.requestLogs := rfl

theorem store_message_sessions (st : Db) (sid : Nat) (role content : String) (tc : Nat) :
    ((store_message st sid role content tc).2).sessions = st.sessions := rfl

theorem store_message_messages (st : Db) (sid : Nat) (role content : String) (tc : Nat) :
    ((store_message st sid role content tc).2).messages
      = st.messages ++ [{ id := st.nextId, sessionId := sid, role := role,
                          content := content, tokenCount := tc }] := rfl

/-- Computation rule for `inboundStep`: it never raises, and its state is the
input state extended by the stored inbound message when the last request
message exists and has role `user`. -/
theorem inboundStep_eq (st : Db) (sid : Nat) (msgs : List ChatMessage) :
    inboundStep st sid msgs =
      .ok (match msgs.getLast? with
           | some last =>
             if last.role == "user" then (store_message st sid "user" last.content 0).2 else st
           | none => st) := by
  cases msgs with
  | nil => simp [inboundStep]
  | cons a l =>
    have hne : (a :: l) ≠ [] := by simp
    unfold inboundStep
    simp only [List.isEmpty_cons, Bool.false_eq_true, if_false]
    cases h : (a :: l).getLast? with
    | none => exact absurd (List.getLast?_eq_none_iff.mp h) hne
    | some last =>
      simp only []
      split <;> rfl

/-- Unfolding of the chat-completion handler for a request whose user
resolves: the pipeline continues on the unchanged store with the supplied
identifier. -/
theorem chat_completions_hit_def (env : Env) (st : Db) (req : ChatRequest)
    (hu : st.users.contains req.userId = true) :
    chat_completions env st req =
      (match inboundStep ((resolve_session env st req.userId req).2)
              ((resolve_session env st req.userId req).1).id req.messages with
       | .error e => (.httpError 500 ("Internal error: " ++ e),
           (resolve_session env st req.userId req).2)
       | .ok st3 =>
         match env.backend (buildVllmRequest req) with
         | .unreachable e => (.httpError 500 ("Internal error: " ++ e), st3)
         | .respond r =>
           after_backend env st3 req.userId
             ((resolve_session env st req.userId req).1)
             (buildVllmRequest req) r) := by
  unfold chat_completions
  rw [get_or_create_user_hit st req.userId hu]

/-- Unfolding of the chat-completion handler for a request whose user does
not resolve: the IntegrityError of step 1 is answered as a 500 and nothing
is written. -/
theorem chat_completions_miss_def (env : Env) (st : Db) (req : ChatRequest)
    (hu : st.users.contains req.userId = false) :
    chat_completions env st req
      = (.httpError 500 ("Internal error: " ++ integrityErrorUsersUsername), st) := by
  unfold chat_completions
  rw [get_or_create_user_miss st req.userId hu]

/-! ## Claim C1 -/

/-- Backend collaborator answering every completion call with a 500 response
whose body text is `boom`. -/
def c1Env : Env :=
  { backend := fun _ => .respond { statusCode := 500, body := "boom", choices := [] } }

/-- A chat request from user `u1` whose last (only) message is a user turn. -/
def c1Req : ChatRequest :=
  { messages := [{ role := "user", content := "hi" }], userId := "u1" }

/-- A store whose `users` table already holds `u1` (so step 1 resolves and
the pipeline reaches the backend at all). -/
def c1St : Db :=
  { users := ["u1"], sessions := [], messages := [], requestLogs := [], nextId := 0 }

/-- C1, counterexample: running the pipeline on a store where `u1` resolves,
against a backend that answers 500, surfaces `vLLM error: boom` with status
500 to the caller, yet leaves the RequestLog table empty — no row recording
the failure's status code is written, contradicting the claim; the user
message persisted in step 3 is still present. -/
theorem chat_backend_failure_requestlog_cex :
    (chat_completions c1Env c1St c1Req).1 = .httpError 500 "vLLM error: boom"
    ∧ (chat_completions c1Env c1St c1Req).2.requestLogs.length = 0
    ∧ ((chat_completions c1Env c1St c1Req).2.messages.map
        (fun m => (m.role, m.content))) = [("user", "hi")] := by
  refine ⟨by decide, by decide, by decide⟩

/-- C1 (amended): when the backend answers a chat-completion call with a
non-200 status — which requires the request's user_id to resolve to an
existing users row, since an unseen user_id already dies at step 1 with a
500 IntegrityError before the backend is called — the pipeline aborts the
reply-persist, touch-session and audit-log steps: the backend's status and
detail are surfaced to the caller, NO RequestLog row is written (the
RequestLog table is unchanged), no assistant Message is persisted (the only
possible new message is the step-3 user message), any user Message persisted
in step 3 remains, and all previously existing session rows survive
untouched. -/
theorem chat_backend_failure_aborts_writes
    (env : Env) (st : Db) (req : ChatRequest) (r : BackendResponse)
    (hu : st.users.contains req.userId = true)
    (hb : env.backend (buildVllmRequest req) = .respond r)
    (hsc : r.statusCode ≠ 200) :
    (chat_completions env st req).1 = .httpError r.statusCode ("vLLM error: " ++ r.body)
    ∧ (chat_completions env st req).2.requestLogs = st.requestLogs
    ∧ (∃ tail,
        (chat_completions env st req).2.messages = st.messages ++ tail
        ∧ tail.map (fun m => (m.role, m.content))
            = (match req.messages.getLast? with
               | some last => if last.role == "user" then [("user", last.content)] else []
               | none => []))
    ∧ (∀ s ∈ st.sessions, s ∈ (chat_completions env st req).2.sessions) := by
  have hne : (r.statusCode != 200) = true := bne_iff_ne.mpr hsc
  rw [chat_completions_hit_def env st req hu, inboundStep_eq, hb]
  simp only [after_backend, hne, if_true]
  cases hl : req.messages.getLast? with
  | none =>
    refine ⟨trivial, ?_, ⟨[], ?_, rfl⟩, ?_⟩
    · simp [resolve_session_requestLogs]
    · simp [resolve_session_messages]
    · intro s hs
      exact resolve_session_sessions_mem _ _ _ _ s hs
  | some last =>
    cases hr : last.role == "user" with
    | false =>
      simp only [hr, if_false, Bool.false_eq_true]
      refine ⟨trivial, ?_, ⟨[], ?_, rfl⟩, ?_⟩
      · simp [resolve_session_requestLogs]
      · simp [resolve_session_messages]
      · intro s hs
        exact resolve_session_sessions_mem _ _ _ _ s hs
    | true =>
      simp only [hr, if_true]
      refine ⟨trivial, ?_, ?_, ?_⟩
      · simp [store_message_requestLogs, resolve_session_requestLogs]
      · have hmsg := store_message_messages
          ((resolve_session env st req.userId req).2)
          ((resolve_session env st req.userId req).1).id "user" last.content 0
        rw [resolve_session_messages] at hmsg
        exact ⟨_, hmsg, by simp⟩
      · intro s hs
        rw [store_message_sessions]
        exact resolve_session_sessions_mem _ _ _ _ s hs

/-- C1, witness: the amended theorem applied at the concrete inputs of the
counterexample run. -/
theorem chat_backend_failure_aborts_writes_witness :
    (chat_completions c1Env c1St c1Req).1 = .httpError 500 "vLLM error: boom"
    ∧ (chat_completions c1Env c1St c1Req).2.requestLogs = [] := by
  have h := chat_backend_failure_aborts_writes c1Env c1St c1Req
    { statusCode := 500, body := "boom", choices := [] } (by decide) rfl (by decide)
  exact ⟨h.1, h.2.1⟩

/-! ## Claim C2 -/

theorem update_session_timestamp_requestLogs (st : Db) (sid clock : Nat) :
    (update_session_timestamp st sid clock).requestLogs = st.requestLogs := rfl

theorem update_session_timestamp_messages (st : Db) (sid clock : Nat) :
    (update_session_timestamp st sid clock).messages = st.messages := rfl

theorem update_session_timestamp_users (st : Db) (sid clock : Nat) :
    (update_session_timestamp st sid clock).users = st.users := rfl

/-- Backend collaborator answering every completion call successfully, paired
with a RequestLog commit that raises `db down`. -/
def c2Env : Env :=
  { backend := fun _ => .respond
      { statusCode := 200, body := "", choices := ["hello"],
        completionTokens := 1, totalTokens := 5 }
    logDbFails := some "db down" }

/-- A chat request from user `u1` whose last (only) message is a user turn. -/
def c2Req : ChatRequest :=
  { messages := [{ role := "user", content := "hi" }], userId := "u1" }

/-- A store whose `users` table already holds `u1` (so step 1 resolves and
the pipeline reaches the backend call and the audit write at all). -/
def c2St : Db :=
  { users := ["u1"], sessions := [], messages := [], requestLogs := [], nextId := 0 }

/-- C2, counterexample: on a store where `u1` resolves, with a successful
backend call and a failing RequestLog commit, the caller does NOT receive
the successful completion response — the handler's generic exception handler
turns the logging failure into a 500 `Internal error`, contradicting the
claim that the failure is swallowed. -/
theorem chat_logwrite_failure_cex :
    (chat_completions c2Env c2St c2Req).1.isOk = false
    ∧ (chat_completions c2Env c2St c2Req).1
        = .httpError 500 "Internal error: db down" := by
  refine ⟨by decide, by decide⟩

/-- C2 (amended): when the backend call succeeds — which requires the
request's user_id to resolve, since an unseen user_id already 500s at step 1
— but the subsequent RequestLog audit write fails, the failure is NOT
swallowed: the caller receives a generic 500 `Internal error` carrying the
exception message instead of the successful completion response, and no
RequestLog row is persisted (the assistant message and session touch
committed before the failure do remain). -/
theorem chat_logwrite_failure_not_swallowed
    (env : Env) (st : Db) (req : ChatRequest) (r : BackendResponse) (e : String)
    (hu : st.users.contains req.userId = true)
    (hb : env.backend (buildVllmRequest req) = .respond r)
    (hsc : r.statusCode = 200)
    (hlog : env.logDbFails = some e) :
    (chat_completions env st req).1 = .httpError 500 ("Internal error: " ++ e)
    ∧ (chat_completions env st req).1.isOk = false
    ∧ (chat_completions env st req).2.requestLogs = st.requestLogs := by
  have h200 : (r.statusCode != 200) = false := by simp [hsc]
  rw [chat_completions_hit_def env st req hu, inboundStep_eq, hb]
  simp only [after_backend, h200, Bool.false_eq_true, if_false, hlog]
  refine ⟨trivial, ?_, ?_⟩
  · simp [PipelineResult.isOk]
  rw [update_session_timestamp_requestLogs]
  cases hc : r.choices with
  | nil =>
    cases hl : req.messages.getLast? with
    | none => simp [resolve_session_requestLogs]
    | some last =>
      cases hr : last.role == "user" <;>
        simp [hr, store_message_requestLogs, resolve_session_requestLogs]
  | cons c rest =>
    rw [store_message_requestLogs]
    cases hl : req.messages.getLast? with
    | none => simp [resolve_session_requestLogs]
    | some last =>
      cases hr : last.role == "user" <;>
        simp [hr, store_message_requestLogs, resolve_session_requestLogs]

/-- C2, witness: the amended theorem applied at the concrete inputs of the
counterexample run. -/
theorem chat_logwrite_failure_not_swallowed_witness :
    (chat_completions c2Env c2St c2Req).1 = .httpError 500 "Internal error: db down"
    ∧ (chat_completions c2Env c2St c2Req).2.requestLogs = [] := by
  have h := chat_logwrite_failure_not_swallowed c2Env c2St c2Req
    { statusCode := 200, body := "", choices := ["hello"],
      completionTokens := 1, totalTokens := 5 } "db down" (by decide) rfl rfl rfl
  exact ⟨h.1, h.2.2⟩

/-! ## Claim C3 -/

theorem resolve_session_none (env : Env) (st : Db) (u : String) (req : ChatRequest)
    (h : req.sessionId = none) :
    resolve_session env st u req
      = create_new_session st u req.model (some ("对话 " ++ env.now)) env.now env.clock := by
  unfold resolve_session; rw [h]

theorem create_new_session_fst_id (st : Db) (u m : String) (t : Option String)
    (now : String) (clock : Nat) :
    ((create_new_session st u m t now clock).1).id = st.nextId := rfl

theorem create_new_session_messages (st : Db) (u m : String) (t : Option String)
    (now : String) (clock : Nat) :
    ((create_new_session st u m t now clock).2).messages = st.messages := rfl

theorem log_request_to_db_messages (st : Db) (u : String) (sid : Nat)
    (ep meth ip ua : String) (rd : VllmRequest) (status ms : Nat) :
    (log_request_to_db st u sid ep meth ip ua rd status ms).messages = st.messages := rfl

/-- Backend collaborator answering every completion call with a 200 response
whose first choice content is `hello`. -/
def c3Env : Env :=
  { backend := fun _ => .respond
      { statusCode := 200, body := "", choices := ["hello"],
        completionTokens := 1, totalTokens := 5 } }

/-- A chat request from user `u1` without a session id, whose last (only)
message is a user turn. -/
def c3Req : ChatRequest :=
  { messages := [{ role := "user", content := "hi" }], userId := "u1" }

/-- A store whose `users` table already holds `u1` (a successful call is
only possible for a user_id that resolves; an unseen one 500s at step 1). -/
def c3St : Db :=
  { users := ["u1"], sessions := [], messages := [], requestLogs := [], nextId := 0 }

/-- C3: after a successful chat-completion call — the request's user_id
resolves (a call with an unseen user_id is never successful: it 500s at step
1) — on a fresh session (no session id supplied, so a new session with the
fresh identifier `st.nextId` is created), the messages of that session are
exactly: the caller's last message as a `user` row when that message has role
`user` (nothing otherwise), followed by the backend's first-choice reply as
an `assistant` row when a choice exists — in that creation order; and the
response is the backend body augmented with the new session id and the
caller's user id. -/
theorem chat_success_fresh_session_messages
    (env : Env) (st : Db) (req : ChatRequest) (r : BackendResponse)
    (hu : st.users.contains req.userId = true)
    (hsid : req.sessionId = none)
    (hb : env.backend (buildVllmRequest req) = .respond r)
    (hsc : r.statusCode = 200)
    (hlog : env.logDbFails = none)
    (hfresh : ∀ m ∈ st.messages, m.sessionId ≠ st.nextId) :
    (((chat_completions env st req).2.messages.filter
        (fun m => m.sessionId == st.nextId)).map (fun m => (m.role, m.content)))
      = (match req.messages.getLast? with
         | some last => if last.role == "user" then [("user", last.content)] else []
         | none => [])
        ++ (match r.choices with
            | [] => []
            | c :: _ => [("assistant", c)])
    ∧ (chat_completions env st req).1
        = .ok { resp := r, sessionId := st.nextId, userId := req.userId } := by
  have h200 : (r.statusCode != 200) = false := by simp [hsc]
  have hnil : st.messages.filter (fun m => m.sessionId == st.nextId) = [] := by
    rw [List.filter_eq_nil_iff]
    intro m hm
    simpa using hfresh m hm
  rw [chat_completions_hit_def env st req hu, resolve_session_none _ _ _ _ hsid,
    inboundStep_eq, hb]
  simp only [after_backend, h200, Bool.false_eq_true, if_false, hlog]
  rw [create_new_session_fst_id]
  constructor
  · rw [log_request_to_db_messages, update_session_timestamp_messages]
    cases hc : r.choices with
    | nil =>
      cases hl : req.messages.getLast? with
      | none =>
        simp [create_new_session_messages, hnil]
      | some last =>
        cases hr : last.role == "user" with
        | false =>
          simp [hr, create_new_session_messages, hnil]
        | true =>
          simp [hr, store_message_messages, List.filter_append,
            create_new_session_messages, hnil]
    | cons c rest =>
      cases hl : req.messages.getLast? with
      | none =>
        simp [store_message_messages, List.filter_append,
          create_new_session_messages, hnil]
      | some last =>
        cases hr : last.role == "user" with
        | false =>
          simp [hr, store_message_messages, List.filter_append,
            create_new_session_messages, hnil]
        | true =>
          simp [hr, store_message_messages, List.filter_append,
            create_new_session_messages, hnil]
  · rfl

/-- C3, witness: the theorem applied to a concrete run on a store where `u1`
resolves: the fresh session (identifier 0) holds exactly the user turn then
the assistant reply, and the response carries the new identifiers. -/
theorem chat_success_fresh_session_messages_witness :
    (((chat_completions c3Env c3St c3Req).2.messages.filter
        (fun m => m.sessionId == 0)).map (fun m => (m.role, m.content)))
      = [("user", "hi"), ("assistant", "hello")]
    ∧ (chat_completions c3Env c3St c3Req).1
        = .ok { resp := { statusCode := 200, body := "", choices := ["hello"],
                          completionTokens := 1, totalTokens := 5 },
                sessionId := 0, userId := "u1" } := by
  have h := chat_success_fresh_session_messages c3Env c3St c3Req
    { statusCode := 200, body := "", choices := ["hello"],
      completionTokens := 1, totalTokens := 5 }
    (by decide) rfl rfl rfl rfl (by simp [c3St])
  exact ⟨h.1, h.2⟩

/-! ## Claim C4 -/

/-- A store whose `users` table already holds the identifier `u1` (the only
situation in which resolve-or-create can return a row). -/
def c4St : Db :=
  { users := ["u1"], sessions := [], messages := [], requestLogs := [], nextId := 0 }

/-- C4 (code bug): resolve-or-create cannot create.  At the failing input —
an identifier absent from `users.id`, which is the normal case since even the
pre-created default user is keyed by a random uuid — the miss-path insert of
`User(id=user_id)` violates the NOT NULL `username` constraint (models.py
line 14) and raises IntegrityError instead of returning a row, persisting
nothing; so the operation is not callable twice returning the same row for
every identifier.  Only for an identifier already present does it behave as
claimed: the hit path returns the row with the store unchanged, so repeating
the call on the returned store is the identical evaluation and yields the
same row. -/
theorem get_or_create_user_miss_integrity_error :
    get_or_create_user Db.empty "u1" = .error integrityErrorUsersUsername
    ∧ get_or_create_user c4St "u1" = .ok ("u1", c4St) := by
  refine ⟨rfl, rfl⟩

/-! ## Claim C5 -/

/-- A store holding the user `u1` and one session (identifier 7) owned by
`u1`; the user `u2` is not in the users table. -/
def c5St : Db :=
  { users := ["u1"],
    sessions := [{ id := 7, userId := "u1", title := "t", modelName := "m",
                   updatedAt := 0 }],
    messages := [], requestLogs := [], nextId := 8 }

/-- C5, counterexample: the claim asserts not-found for EVERY `u2 ≠ u` on any
session endpoint, but for a `u2` absent from `users.id` the delete and
list-messages endpoints answer 500 with the resolve-or-create IntegrityError
detail — they never reach the scoped lookup — not 404 (and the get endpoint
cannot run at all: its body is a syntax error, index.py lines 461-462). -/
theorem session_ownership_unresolved_user_cex :
    (delete_session_ep c5St 7 "u2").1
      = .err 500 ("Failed to delete session: " ++ integrityErrorUsersUsername)
    ∧ (get_session_messages_ep c5St 7 "u2").1
      = .err 500 ("Failed to get messages: " ++ integrityErrorUsersUsername) := by
  refine ⟨by decide, by decide⟩

/-- C5 (amended): ownership isolation holds for callers that resolve.  For a
session `s` owned by user `u` (session identifiers unique, so no other row
reuses `s.id`) and any other user `u2 ≠ u` that is present in `users.id`,
the owner-scoped lookup for `s.id` as `u2` misses, and the delete and
list-messages endpoints answer 404 `Session not found`.  A `u2` absent from
`users.id` instead receives a 500 from the resolve-or-create IntegrityError
before any lookup, and the get endpoint is dead code (syntax error at
index.py lines 461-462) — so in no case does a session identifier alone
resolve a session owned by a different user. -/
theorem session_ownership_isolation_resolved
    (st : Db) (s : SessionRow) (u u2 : String)
    (hs : s ∈ st.sessions)
    (hown : s.userId = u)
    (hneq : u2 ≠ u)
    (hu2 : st.users.contains u2 = true)
    (huniq : ∀ s2 ∈ st.sessions, s2.id = s.id → s2.userId = u) :
    get_session_by_id st s.id u2 = none
    ∧ (delete_session_ep st s.id u2).1 = .err 404 "Session not found"
    ∧ (get_session_messages_ep st s.id u2).1 = .err 404 "Session not found" := by
  have hfind : get_session_by_id st s.id u2 = none := by
    unfold get_session_by_id
    rw [List.find?_eq_none]
    intro x hx
    simp only [Bool.and_eq_true, beq_iff_eq, not_and]
    intro hid hxu
    exact hneq (hxu.symm.trans (huniq x hx hid))
  refine ⟨hfind, ?_, ?_⟩
  · unfold delete_session_ep
    rw [get_or_create_user_hit st u2 hu2]
    simp [hfind]
  · unfold get_session_messages_ep
    rw [get_or_create_user_hit st u2 hu2]
    simp [hfind]

/-- C5, witness: a store holding users `u1` and `u2` and one session
(identifier 7) owned by `u1`; looking it up as `u2` misses on the raw lookup
and 404s on the delete endpoint. -/
theorem session_ownership_isolation_resolved_witness :
    get_session_by_id
        { users := ["u1", "u2"],
          sessions := [{ id := 7, userId := "u1", title := "t", modelName := "m",
                         updatedAt := 0 }],
          messages := [], requestLogs := [], nextId := 8 } 7 "u2" = none
    ∧ (delete_session_ep
        { users := ["u1", "u2"],
          sessions := [{ id := 7, userId := "u1", title := "t", modelName := "m",
                         updatedAt := 0 }],
          messages := [], requestLogs := [], nextId := 8 } 7 "u2").1
        = .err 404 "Session not found" := by
  have h := session_ownership_isolation_resolved
    { users := ["u1", "u2"],
      sessions := [{ id := 7, userId := "u1", title := "t", modelName := "m",
                     updatedAt := 0 }],
      messages := [], requestLogs := [], nextId := 8 }
    { id := 7, userId := "u1", title := "t", modelName := "m", updatedAt := 0 }
    "u1" "u2" (by decide) rfl (by decide) (by decide) (by decide)
  exact ⟨h.1, h.2.1⟩

/-! ## Claim C6 -/

/-- Guard configuration with a valid shared key `k`, no origin restriction,
and request logging enabled. -/
def c6Cfg : AuthConfig :=
  { apiKey := "k", allowedIps := [], logRequests := true }

/-- C6, counterexample: a fully passing access-guard check (valid credential,
empty allow-list, logging enabled) emits zero audit facts, not exactly one —
`verify_token` only calls `log_request` on its two denial paths. -/
theorem verify_token_pass_emits_nothing_cex :
    (verify_token c6Cfg "t0" { text := "1.2.3.4", numeric := 16909060 }
      "/v1/models" "k").1 = .allowed "1.2.3.4"
    ∧ (verify_token c6Cfg "t0" { text := "1.2.3.4", numeric := 16909060 }
      "/v1/models" "k").2.length = 0 := by
  refine ⟨by decide, by decide⟩

/-- C6 (amended): the access guard emits exactly one structured audit fact
precisely when the check is denied AND the request-logging toggle is enabled
(IP_BLOCKED for an origin denial, AUTH_FAILED for a credential denial);
a passing check emits no fact from the guard itself, and a disabled toggle
suppresses the emission even on denial. -/
theorem verify_token_audit_emission
    (cfg : AuthConfig) (ts : String) (ip : IpAddr) (path credential : String) :
    (verify_token cfg ts ip path credential).2.length
      = (if (verify_token cfg ts ip path credential).1.isDenied && cfg.logRequests
         then 1 else 0) := by
  unfold verify_token
  cases hip : check_ip_allowed cfg ip with
  | false =>
    simp only [hip, Bool.not_false, if_true]
    cases hl : cfg.logRequests <;>
      simp [SimpleAuth_log_request, AuthDecision.isDenied, hl]
  | true =>
    cases hkey : verify_api_key cfg credential with
    | false =>
      simp only [hip, hkey, Bool.not_true, Bool.not_false, Bool.false_eq_true,
        if_false, if_true]
      cases hl : cfg.logRequests <;>
        simp [SimpleAuth_log_request, AuthDecision.isDenied, hl]
    | true =>
      simp [hip, hkey, AuthDecision.isDenied]

/-! ## Claim C7 -/

/-- A chat request whose max_tokens is set — to the value 0. -/
def c7Req : ChatRequest :=
  { messages := [], maxTokens := some 0 }

/-- C7, counterexample: a request with `max_tokens` set to 0 has the field
set, yet the wire payload omits `max_tokens` — the Python truthiness test
`if chat_request.max_tokens:` treats 0 like an unset value, refuting the
claimed if-and-only-if. -/
theorem build_vllm_max_tokens_cex :
    c7Req.maxTokens.isSome = true
    ∧ (buildVllmRequest c7Req).maxTokens = none := by
  refine ⟨rfl, rfl⟩

/-- C7 (amended): the wire payload contains `max_tokens` if and only if the
request's `max_tokens` is set to a nonzero value, in which case that value is
forwarded unchanged; an unset value — and, by Python truthiness, a set zero —
is omitted entirely rather than sent as null. -/
theorem build_vllm_max_tokens (req : ChatRequest) :
    (buildVllmRequest req).maxTokens
      = (match req.maxTokens with
         | some v => if v = 0 then none else some v
         | none => none)
    ∧ ((buildVllmRequest req).maxTokens.isSome = true
        ↔ req.maxTokens ≠ none ∧ req.maxTokens ≠ some 0) := by
  cases hmt : req.maxTokens with
  | none => simp [buildVllmRequest, pyTruthyOptInt, hmt]
  | some v =>
    by_cases hv : v = 0
    · subst hv
      simp [buildVllmRequest, pyTruthyOptInt, hmt]
    · simp [buildVllmRequest, pyTruthyOptInt, hmt, hv]

/-! ## Claim C8 -/

/-- Ambient inputs for a session-create call (the backend is never consulted
by this endpoint). -/
def c8Env : Env :=
  { backend := fun _ => .unreachable "unused" }

/-- The failing input of C8: a well-formed session-create body for user `u1`
with the default model name. -/
def c8Sd : SessionCreate :=
  { title := none, modelName := "qwen2.5-7b", systemPrompt := none, userId := "u1" }

/-- A store whose `users` table already holds `u1` (so resolve-or-create
succeeds and the endpoint reaches the `session_data.model` read). -/
def c8StHit : Db :=
  { users := ["u1"], sessions := [], messages := [], requestLogs := [], nextId := 0 }

/-- C8 (code bug): the create-session endpoint can never create a session.
At the named failing input with `u1` unseen (the normal case — even the
pre-created default user is keyed by a random uuid), resolve-or-create raises
IntegrityError first, the endpoint answers 500 with that detail and persists
NO User row.  With `u1` already present the endpoint instead reads
`session_data.model`, an attribute the `SessionCreate` model does not have,
and again answers 500 with no Session row inserted.  Either way the endpoint
contradicts its declared purpose and response model; the evaluations below
exhibit both failure modes. -/
theorem create_session_ep_never_creates :
    (create_session_ep c8Env Db.empty c8Sd).1
      = .err 500 ("Failed to create session: " ++ integrityErrorUsersUsername)
    ∧ (create_session_ep c8Env Db.empty c8Sd).2.users = []
    ∧ (create_session_ep c8Env Db.empty c8Sd).2.sessions = []
    ∧ (create_session_ep c8Env c8StHit c8Sd).1
      = .err 500 "Failed to create session: SessionCreate object has no attribute model"
    ∧ (create_session_ep c8Env c8StHit c8Sd).2.sessions = [] := by
  refine ⟨by decide, by decide, by decide, by decide, by decide⟩

/-! ## Claim C9 -/

/-- C9, counterexample: presenting the previously-unseen user_id `u9` to the
delete endpoint does NOT insert a User row — the resolve-or-create insert
raises IntegrityError, the endpoint answers 500 (not the claimed 404) and
the users table is left untouched. -/
theorem session_endpoints_no_user_insert_cex :
    (delete_session_ep Db.empty 5 "u9").1
      = .err 500 ("Failed to delete session: " ++ integrityErrorUsersUsername)
    ∧ (delete_session_ep Db.empty 5 "u9").2.users = [] := by
  refine ⟨by decide, by decide⟩

/-- C9 (amended): every session CRUD endpoint that can execute — create,
list, delete, list-messages; the get endpoint is dead code (syntax error at
index.py lines 461-462) — does begin with resolve-or-create on the supplied
user_id, but a previously-unseen identifier `u` does NOT insert a User row:
the miss-path insert raises IntegrityError (users.username NOT NULL), each
endpoint answers 500 carrying that detail instead of reaching its own
lookup, and the store is left exactly as it was — the endpoints attempt a
write on the User table but never persist one. -/
theorem session_endpoints_unseen_user_500
    (env : Env) (st : Db) (sid : Nat) (u : String) (sd : SessionCreate)
    (hu : st.users.contains u = false)
    (hsd : sd.userId = u) :
    (create_session_ep env st sd).1
      = .err 500 ("Failed to create session: " ++ integrityErrorUsersUsername)
    ∧ (create_session_ep env st sd).2 = st
    ∧ (list_sessions_ep st u).1
      = .err 500 ("Failed to list sessions: " ++ integrityErrorUsersUsername)
    ∧ (list_sessions_ep st u).2 = st
    ∧ (delete_session_ep st sid u).1
      = .err 500 ("Failed to delete session: " ++ integrityErrorUsersUsername)
    ∧ (delete_session_ep st sid u).2 = st
    ∧ (get_session_messages_ep st sid u).1
      = .err 500 ("Failed to get messages: " ++ integrityErrorUsersUsername)
    ∧ (get_session_messages_ep st sid u).2 = st := by
  have hmiss : get_or_create_user st u = .error integrityErrorUsersUsername :=
    get_or_create_user_miss st u hu
  have hmiss2 : get_or_create_user st sd.userId = .error integrityErrorUsersUsername := by
    rw [hsd]; exact hmiss
  refine ⟨?_, ?_, ?_, ?_, ?_, ?_, ?_, ?_⟩
  · unfold create_session_ep
    rw [hmiss2]
  · unfold create_session_ep
    rw [hmiss2]
  · unfold list_sessions_ep
    rw [hmiss]
  · unfold list_sessions_ep
    rw [hmiss]
  · unfold delete_session_ep
    rw [hmiss]
  · unfold delete_session_ep
    rw [hmiss]
  · unfold get_session_messages_ep
    rw [hmiss]
  · unfold get_session_messages_ep
    rw [hmiss]

/-- Ambient inputs for the C9 witness run (the backend is never consulted by
the session CRUD endpoints). -/
def c9Env : Env :=
  { backend := fun _ => .unreachable "unused" }

/-- C9, witness: the amended theorem applied on the empty store with the
unseen user identifier `u9` and session identifier 5. -/
theorem session_endpoints_unseen_user_500_witness :
    (list_sessions_ep Db.empty "u9").1
      = .err 500 ("Failed to list sessions: " ++ integrityErrorUsersUsername)
    ∧ (list_sessions_ep Db.empty "u9").2 = Db.empty
    ∧ (get_session_messages_ep Db.empty 5 "u9").1
      = .err 500 ("Failed to get messages: " ++ integrityErrorUsersUsername) := by
  have h := session_endpoints_unseen_user_500 c9Env Db.empty 5 "u9"
    { userId := "u9" } rfl rfl
  exact ⟨h.2.2.1, h.2.2.2.1, h.2.2.2.2.2.2.1⟩

/-! ## Claim C10 -/

/-- Backend collaborator answering every completion call with a 200 response
whose first choice content is `hello`. -/
def c10Env : Env :=
  { backend := fun _ => .respond
      { statusCode := 200, body := "", choices := ["hello"],
        completionTokens := 1, totalTokens := 5 } }

/-- A chat request whose messages list is empty. -/
def c10Req : ChatRequest :=
  { messages := [], userId := "u1" }

/-- A store whose `users` table already holds `u1` (so step 1 resolves and
the pipeline reaches the message-selection step at all). -/
def c10St : Db :=
  { users := ["u1"], sessions := [], messages := [], requestLogs := [], nextId := 0 }

/-- C10: for a chat-completion request whose user_id resolves (an unseen one
500s at step 1, before the message-selection step is reached), an empty
messages list does not fault when selecting the caller's last message — the
`messages[-1]` access is guarded by the emptiness check — so no inbound user
Message is persisted, the request still proceeds to the backend call, the
wire payload carries the empty message list, and (for a successful backend)
the caller receives the completion response. -/
theorem chat_empty_messages_no_fault
    (env : Env) (st : Db) (req : ChatRequest) (r : BackendResponse)
    (hu : st.users.contains req.userId = true)
    (hm : req.messages = [])
    (hb : env.backend (buildVllmRequest req) = .respond r)
    (hsc : r.statusCode = 200)
    (hlog : env.logDbFails = none) :
    (buildVllmRequest req).messages = []
    ∧ (∃ out, (chat_completions env st req).1 = .ok out ∧ out.resp = r)
    ∧ (chat_completions env st req).2.messages.filter (fun m => m.role == "user")
        = st.messages.filter (fun m => m.role == "user") := by
  have hp : (buildVllmRequest req).messages = [] := by
    unfold buildVllmRequest
    split <;> simp [hm]
  have h200 : (r.statusCode != 200) = false := by simp [hsc]
  rw [chat_completions_hit_def env st req hu, inboundStep_eq, hb]
  simp only [hm, List.getLast?_nil, after_backend, h200, Bool.false_eq_true,
    if_false, hlog]
  refine ⟨hp, ⟨_, rfl, rfl⟩, ?_⟩
  rw [log_request_to_db_messages, update_session_timestamp_messages]
  cases hc : r.choices with
  | nil =>
    rw [resolve_session_messages]
  | cons c rest =>
    rw [store_message_messages, resolve_session_messages, List.filter_append]
    simp

/-- C10, witness: the theorem applied to a concrete run with an empty
messages list, a resolving user and a successful backend. -/
theorem chat_empty_messages_no_fault_witness :
    (buildVllmRequest c10Req).messages = []
    ∧ (∃ out, (chat_completions c10Env c10St c10Req).1 = .ok out
        ∧ out.resp = { statusCode := 200, body := "", choices := ["hello"],
                       completionTokens := 1, totalTokens := 5 })
    ∧ (chat_completions c10Env c10St c10Req).2.messages.filter
        (fun m => m.role == "user") = [] := by
  have h := chat_empty_messages_no_fault c10Env c10St c10Req
    { statusCode := 200, body := "", choices := ["hello"],
      completionTokens := 1, totalTokens := 5 } (by decide) rfl rfl rfl rfl
  exact ⟨h.1, h.2.1, h.2.2⟩

end Gateway
